import Mathlib

/-!
Shallow embedding of the MDRM explorer ETL pipeline
(`create_mdrm_database.py`) and of the point-lookup endpoint of the web
façade (`mdrm_web_explorer.py`), together with theorems settling claims
about the natural-language specification of the repository.

The embedding follows the Python source:
  * a pandas `DataFrame` becomes a header (list of column names) plus a
    list of rows, each row a list of cells;
  * a cell is null (pandas `NaN` / `NaT`), a string, or a parsed calendar
    date (pandas `Timestamp` at day granularity, as produced by
    `pd.to_datetime`);
  * fallible library calls (`df[cols]` with a missing column raises
    `KeyError`; decoding raises `UnicodeDecodeError`) return `Option`;
  * SQL `COUNT(*) ... WHERE p` becomes the length of a Boolean filter,
    with SQLite's three-valued logic made explicit: a comparison against
    NULL is not satisfied.
-/

/-- A calendar date, as produced by `pd.to_datetime` and compared by the
SQLite date comparisons of `create_summary_stats`. -/
structure SqlDate where
  year : Nat
  month : Nat
  day : Nat
deriving DecidableEq, Repr

/-- Strict chronological order on dates, the meaning of SQLite's `>` on
the `end_date` column versus `date('now')` (and symmetrically `<`). -/
def SqlDate.lt (a b : SqlDate) : Bool :=
  a.year < b.year ||
    (a.year == b.year &&
      (a.month < b.month || (a.month == b.month && a.day < b.day)))

/-- Chronological `<=` on dates, the meaning of SQLite's `<=` in the
`expired_items` query. -/
def SqlDate.le (a b : SqlDate) : Bool :=
  a.year < b.year ||
    (a.year == b.year &&
      (a.month < b.month || (a.month == b.month && a.day ≤ b.day)))

/-- One cell of the tabular structure loaded by pandas: missing
(`NaN`/`NaT`), a string, or a parsed date. -/
inductive Cell where
  | null : Cell
  | str : String → Cell
  | date : SqlDate → Cell
deriving DecidableEq, Repr

/-- A pandas `DataFrame`: column names plus rectangular rows of cells
(cells are addressed by the position of their column name in the
header). -/
structure DataFrame where
  header : List String
  rows : List (List Cell)
deriving DecidableEq, Repr

/-- Cell of a row at a column position; pandas frames are rectangular, a
position beyond the row reads as missing. -/
def getCell (row : List Cell) (i : Nat) : Cell :=
  row.getD i Cell.null

/-- `df[col] = df[col].map g` guarded by `if col in df.columns`, as in
`clean_csv_data`: apply `g` to every cell of the named column, leave the
frame unchanged when the column is absent. -/
def mapColumn (f : DataFrame) (c : String) (g : Cell → Cell) : DataFrame :=
  match f.header.indexOf? c with
  | none => f
  | some i => { f with rows := f.rows.map (fun r => r.set i (g (getCell r i))) }

/-- `df[c] = <per-row value>`: overwrite the column when it exists,
append a new column otherwise (pandas column assignment). -/
def assignColumn (f : DataFrame) (c : String) (g : List Cell → Cell) : DataFrame :=
  match f.header.indexOf? c with
  | some i => { f with rows := f.rows.map (fun r => r.set i (g r)) }
  | none =>
      { header := f.header ++ [c],
        rows := f.rows.map (fun r => r ++ [g r]) }

/-- Zero-padded two-digit rendering used in ISO date text. -/
def pad2 (n : Nat) : String :=
  if n < 10 then "0" ++ toString n else toString n

/-- ISO rendering of a date (`YYYY-MM-DD`). -/
def sqlDateToString (d : SqlDate) : String :=
  toString d.year ++ "-" ++ pad2 d.month ++ "-" ++ pad2 d.day

/-- Pandas `Series.astype(str)` on one cell: a missing value renders as
the literal string `nan` (Python `str(float('nan'))`), a string stays
itself, a parsed date renders as its timestamp text. -/
def astypeStr (c : Cell) : String :=
  match c with
  | Cell.null => "nan"
  | Cell.str s => s
  | Cell.date d => sqlDateToString d ++ " 00:00:00"

/-- Leading and trailing whitespace removal on a character list (the
effect of Python `str.strip()` on the characters used here). -/
def trimChars (l : List Char) : List Char :=
  ((l.dropWhile Char.isWhitespace).reverse.dropWhile Char.isWhitespace).reverse

/-- Fuel-driven worker for `replaceChars`; the fuel starts at the length
of the list, which bounds the number of steps, so the recursion is
structural and evaluates inside the kernel. -/
def replaceCharsAux (pat repl : List Char) : Nat → List Char → List Char
  | _, [] => []
  | 0, l => l
  | Nat.succ fuel, c :: rest =>
      if pat ≠ [] ∧ pat.isPrefixOf (c :: rest) then
        repl ++ replaceCharsAux pat repl fuel ((c :: rest).drop pat.length)
      else c :: replaceCharsAux pat repl fuel rest

/-- Replacement of every occurrence of `pat` by `repl`, left to right
and non-overlapping (the effect of `Series.str.replace(pat, repl,
regex=False)` on one value). -/
def replaceChars (pat repl l : List Char) : List Char :=
  replaceCharsAux pat repl l.length l

/-- Split on a separator character (used by the date parser). -/
def splitOnChar (sep : Char) : List Char → List (List Char)
  | [] => [[]]
  | c :: rest =>
      match splitOnChar sep rest with
      | [] => if c == sep then [[], []] else [[c]]
      | hd :: tl => if c == sep then [] :: hd :: tl else (c :: hd) :: tl

/-- Decimal digit value. -/
def digitVal? (c : Char) : Option Nat :=
  if '0' ≤ c ∧ c ≤ '9' then some (c.toNat - '0'.toNat) else none

/-- Nonempty all-digit character list to a number. -/
def charsToNat? (l : List Char) : Option Nat :=
  if l.isEmpty then none
  else
    l.foldl
      (fun acc c =>
        match acc, digitVal? c with
        | some n, some d => some (n * 10 + d)
        | _, _ => none)
      (some 0)

/-- Range check performed by the date parser before building a date. -/
def mkDate (y m d : Nat) : Option SqlDate :=
  if 1 ≤ m ∧ m ≤ 12 ∧ 1 ≤ d ∧ d ≤ 31 then some ⟨y, m, d⟩ else none

/-- Modelled from the pandas library call `pd.to_datetime(...)` applied
to one string: recognise `YYYY-MM-DD` and `M/D/YYYY` shaped values,
reject everything else. The coercion policy of `errors='coerce'` lives
in `toDatetimeCoerce` below. -/
def parseDateStr (s : String) : Option SqlDate :=
  let t := trimChars s.data
  match (splitOnChar '-' t) with
  | [y, m, d] =>
      match charsToNat? y, charsToNat? m, charsToNat? d with
      | some yn, some mn, some dn => mkDate yn mn dn
      | _, _, _ => none
  | _ =>
      match (splitOnChar '/' t) with
      | [m, d, y] =>
          match charsToNat? m, charsToNat? d, charsToNat? y with
          | some mn, some dn, some yn => mkDate yn mn dn
          | _, _, _ => none
      | _ => none

/-- `pd.to_datetime(df[col], errors='coerce')` on one cell: parse
failures and missing values become `NaT` (null) instead of raising; the
function is total, so no input can raise or reject a row. -/
def toDatetimeCoerce (c : Cell) : Cell :=
  match c with
  | Cell.null => Cell.null
  | Cell.date d => Cell.date d
  | Cell.str s =>
      match parseDateStr s with
      | some d => Cell.date d
      | none => Cell.null

/-- The text transformation of `clean_csv_data` lines 47-49: decode the
carriage-return numeric entity to a newline, decode the ampersand
entity, then strip surrounding whitespace. -/
def cleanTextStr (s : String) : String :=
  String.mk (trimChars (replaceChars "&amp;".data "&".data
    (replaceChars "&#x0D;".data "\n".data s.data)))

/-- Per-cell effect of the text-column cleanup: `astype(str)` followed
by `cleanTextStr`; the result is always a string cell. -/
def textCleanCell (c : Cell) : Cell :=
  Cell.str (cleanTextStr (astypeStr c))

/-- `df.columns.str.strip().str.rstrip(',')` on one name. -/
def cleanHeaderName (h : String) : String :=
  String.mk (((trimChars h.data).reverse.dropWhile (fun ch => ch == ',')).reverse)

/-- `df.columns = df.columns.str.strip().str.rstrip(',')`. -/
def cleanHeaderStep (f : DataFrame) : DataFrame :=
  { f with header := f.header.map cleanHeaderName }

/-- The date-column loop of `clean_csv_data` over
`['Start Date', 'End Date']`. -/
def cleanDatesStep (f : DataFrame) : DataFrame :=
  mapColumn (mapColumn f "Start Date" toDatetimeCoerce) "End Date" toDatetimeCoerce

/-- The text-column loop of `clean_csv_data` over
`['Description', 'SeriesGlossary', 'Item Name']`. -/
def cleanTextStep (f : DataFrame) : DataFrame :=
  mapColumn (mapColumn (mapColumn f "Description" textCleanCell)
    "SeriesGlossary" textCleanCell) "Item Name" textCleanCell

/-- `if 'Mnemonic' in df.columns and 'Item Code' in df.columns:
df['MDRM_Identifier'] = df['Mnemonic'].astype(str) + df['Item Code'].astype(str)`. -/
def addIdentifier (f : DataFrame) : DataFrame :=
  match f.header.indexOf? "Mnemonic", f.header.indexOf? "Item Code" with
  | some i, some j =>
      assignColumn f "MDRM_Identifier"
        (fun r => Cell.str (astypeStr (getCell r i) ++ astypeStr (getCell r j)))
  | _, _ => f

/-- `clean_csv_data` after the file has been read: header cleanup, date
parsing, text cleanup, identifier synthesis, in source order. -/
def clean_csv_data (f : DataFrame) : DataFrame :=
  addIdentifier (cleanTextStep (cleanDatesStep (cleanHeaderStep f)))

/-- The `columns_mapping` dict of `create_database`, in insertion
order. -/
def columnsMapping : List (String × String) :=
  [("MDRM_Identifier", "mdrm_identifier"),
   ("Mnemonic", "mnemonic"),
   ("Item Code", "item_code"),
   ("Start Date", "start_date"),
   ("End Date", "end_date"),
   ("Item Name", "item_name"),
   ("Confidentiality", "confidentiality"),
   ("ItemType", "item_type"),
   ("Reporting Form", "reporting_form"),
   ("Description", "description"),
   ("SeriesGlossary", "series_glossary")]

/-- `insert_columns = list(columns_mapping.values())`. -/
def insertColumns : List String := columnsMapping.map (fun p => p.2)

/-- The rename loop of `create_database`: each header name that is a key
of `columns_mapping` is replaced by its value. -/
def renameCols (f : DataFrame) : DataFrame :=
  { f with header := f.header.map (fun h =>
      match columnsMapping.lookup h with
      | some n => n
      | none => h) }

/-- `df_clean[insert_columns]`: column projection. Any requested column
missing from the frame raises `KeyError` (pandas refuses list indexing
with missing labels), modelled as `none`. -/
def selectCols (f : DataFrame) (cols : List String) : Option DataFrame :=
  if (∀ c ∈ cols, c ∈ f.header) then
    some { header := cols,
           rows := f.rows.map (fun r => cols.map (fun c => getCell r (f.header.indexOf c))) }
  else none

/-- One row of the `mdrm_data` fact table (surrogate key and
`created_at` omitted: they are storage-generated, not data-derived). -/
structure MdrmRow where
  mdrm_identifier : Option String
  mnemonic : Option String
  item_code : Option String
  start_date : Option SqlDate
  end_date : Option SqlDate
  item_name : Option String
  confidentiality : Option String
  item_type : Option String
  reporting_form : Option String
  description : Option String
  series_glossary : Option String
deriving DecidableEq, Repr

/-- SQLite storage of one cell in a TEXT column: null stays NULL, a
string stays itself, a datetime is adapted to its ISO text. -/
def cellToOptStr (c : Cell) : Option String :=
  match c with
  | Cell.null => none
  | Cell.str s => some s
  | Cell.date d => some (sqlDateToString d ++ " 00:00:00")

/-- SQLite storage of one cell in a DATE column: only parsed dates are
kept, `NaT` stays NULL. -/
def cellToOptDate (c : Cell) : Option SqlDate :=
  match c with
  | Cell.date d => some d
  | _ => none

/-- Conversion of one projected row (cells in `insertColumns` order)
into a fact-table row, as performed by `df_insert.to_sql`. -/
def toMdrmRow (cells : List Cell) : MdrmRow :=
  { mdrm_identifier := cellToOptStr (getCell cells 0),
    mnemonic := cellToOptStr (getCell cells 1),
    item_code := cellToOptStr (getCell cells 2),
    start_date := cellToOptDate (getCell cells 3),
    end_date := cellToOptDate (getCell cells 4),
    item_name := cellToOptStr (getCell cells 5),
    confidentiality := cellToOptStr (getCell cells 6),
    item_type := cellToOptStr (getCell cells 7),
    reporting_form := cellToOptStr (getCell cells 8),
    description := cellToOptStr (getCell cells 9),
    series_glossary := cellToOptStr (getCell cells 10) }

/-- `SELECT COUNT(*) FROM mdrm_data WHERE p`. -/
def sqlCount (p : MdrmRow → Bool) (rows : List MdrmRow) : Nat :=
  (rows.filter p).length

/-- `end_date > date('now')`: satisfied only by a non-NULL end date
strictly after today (SQLite three-valued logic: NULL compares to
nothing). -/
def isActiveRow (today : SqlDate) (r : MdrmRow) : Bool :=
  match r.end_date with
  | some d => SqlDate.lt today d
  | none => false

/-- `end_date <= date('now')`: satisfied only by a non-NULL end date on
or before today. -/
def isExpiredRow (today : SqlDate) (r : MdrmRow) : Bool :=
  match r.end_date with
  | some d => SqlDate.le d today
  | none => false

/-- The rows of the `mdrm_summary` table, named by the statistics of
`create_summary_stats` (`created_at` omitted as storage-generated). -/
structure SummaryStats where
  total_records : Nat
  unique_mnemonics : Nat
  unique_item_codes : Nat
  unique_reporting_forms : Nat
  confidential_items : Nat
  public_items : Nat
  active_items : Nat
  expired_items : Nat
  item_type_counts : List (String × Nat)
deriving DecidableEq, Repr

/-- `create_summary_stats`: the eight fixed statistics plus the
`item_type_<code>` family (grouping excludes NULL and empty codes;
`COUNT(DISTINCT col)` counts distinct non-NULL values). -/
def create_summary_stats (rows : List MdrmRow) (today : SqlDate) : SummaryStats :=
  { total_records := rows.length,
    unique_mnemonics := ((rows.filterMap (fun r => r.mnemonic)).dedup).length,
    unique_item_codes := ((rows.filterMap (fun r => r.item_code)).dedup).length,
    unique_reporting_forms :=
      (((rows.filterMap (fun r => r.reporting_form)).filter (fun s => s ≠ "")).dedup).length,
    confidential_items := sqlCount (fun r => r.confidentiality == some "Y") rows,
    public_items := sqlCount (fun r => r.confidentiality == some "N") rows,
    active_items := sqlCount (isActiveRow today) rows,
    expired_items := sqlCount (isExpiredRow today) rows,
    item_type_counts :=
      let vals := (rows.filterMap (fun r => r.item_type)).filter (fun s => s ≠ "")
      vals.dedup.map (fun t => (t, (vals.filter (fun s => s == t)).length)) }

/-- The persistent store produced by one load: the fact table and the
summary table. -/
structure MdrmDatabase where
  rows : List MdrmRow
  stats : SummaryStats
deriving DecidableEq, Repr

/-- `create_database`: the pre-existing store (`prior`) is removed
unconditionally (`os.remove`), the frame is renamed and projected to the
insert columns (`KeyError` aborts the load), every projected row is
inserted, then summary statistics are computed. -/
def create_database (prior : Option MdrmDatabase) (df : DataFrame) (today : SqlDate) :
    Option MdrmDatabase :=
  let _ := prior
  let df_clean := renameCols df
  match selectCols df_clean insertColumns with
  | none => none
  | some df_insert =>
      let rows := df_insert.rows.map toMdrmRow
      some { rows := rows, stats := create_summary_stats rows today }

/-- The batch pipeline of `main` after the file is read: normalize, then
load. -/
def runPipeline (prior : Option MdrmDatabase) (df : DataFrame) (today : SqlDate) :
    Option MdrmDatabase :=
  create_database prior (clean_csv_data df) today

/-- The two encodings tried by the CSV read of `clean_csv_data`. -/
inductive CsvEncoding where
  | utf8 : CsvEncoding
  | latin1 : CsvEncoding
deriving DecidableEq, Repr

/-- A UTF-8 continuation byte. -/
def isContByte (b : Nat) : Bool := 0x80 ≤ b && b ≤ 0xBF

/-- Modelled from the Python `utf-8` codec used by
`pd.read_csv(..., encoding='utf-8')`: strict UTF-8 decoding of a byte
sequence into code points, rejecting truncated sequences, stray
continuation bytes, overlong forms, surrogates and values above
`U+10FFFF` (a rejection is the `UnicodeDecodeError` of the source). -/
def utf8DecodeList : List Nat → Option (List Nat)
  | [] => some []
  | b :: rest =>
    if b < 0x80 then (utf8DecodeList rest).map (fun t => b :: t)
    else if b < 0xC2 then none
    else if b < 0xE0 then
      match rest with
      | c1 :: r =>
          if isContByte c1 then
            (utf8DecodeList r).map (fun t => ((b % 0x20) * 0x40 + c1 % 0x40) :: t)
          else none
      | [] => none
    else if b < 0xF0 then
      match rest with
      | c1 :: c2 :: r =>
          if isContByte c1 && isContByte c2 &&
              !(b == 0xE0 && c1 < 0xA0) && !(b == 0xED && 0xA0 ≤ c1) then
            (utf8DecodeList r).map
              (fun t => ((b % 0x10) * 0x1000 + (c1 % 0x40) * 0x40 + c2 % 0x40) :: t)
          else none
      | _ => none
    else if b < 0xF5 then
      match rest with
      | c1 :: c2 :: c3 :: r =>
          if isContByte c1 && isContByte c2 && isContByte c3 &&
              !(b == 0xF0 && c1 < 0x90) && !(b == 0xF4 && 0x90 ≤ c1) then
            (utf8DecodeList r).map
              (fun t => ((b % 8) * 0x40000 + (c1 % 0x40) * 0x1000 +
                (c2 % 0x40) * 0x40 + c3 % 0x40) :: t)
          else none
      | _ => none
    else none

/-- Modelled from the Python `latin-1` codec used by the fallback read:
every byte decodes to the code point of the same value, so decoding is
total and never raises. -/
def latin1DecodeList (bs : List Nat) : Option (List Nat) :=
  some bs

/-- Outcome of the guarded CSV read: which encodings were attempted, in
order, and the decoded text when one of them succeeded. -/
structure ReadAttempt where
  attempted : List CsvEncoding
  result : Option (List Nat)
deriving DecidableEq, Repr

/-- The `try/except UnicodeDecodeError` around `pd.read_csv` in
`clean_csv_data`: read as UTF-8; on a decode error retry once as
latin-1; a failure of the retry would propagate. -/
def readMdrmCsv (bs : List Nat) : ReadAttempt :=
  match utf8DecodeList bs with
  | some t => ⟨[CsvEncoding.utf8], some t⟩
  | none => ⟨[CsvEncoding.utf8, CsvEncoding.latin1], latin1DecodeList bs⟩

/-- Exit status of `main` as far as the read step decides it: an error
propagating out of the read is caught and turned into `sys.exit(1)`;
otherwise processing continues (status 0 here). -/
def mainExitOnRead (bs : List Nat) : Nat :=
  match (readMdrmCsv bs).result with
  | some _ => 0
  | none => 1

/-- Response of the `/api/details/<mdrm_id>` endpoint: a full record
with HTTP 200, or the structured body `{'error': 'Item not found'}`
with HTTP 404. -/
inductive DetailsResponse where
  | ok : MdrmRow → DetailsResponse
  | notFound : DetailsResponse
deriving DecidableEq, Repr

/-- `get_details` of `mdrm_web_explorer.py`: `SELECT * FROM mdrm_data
WHERE mdrm_identifier = ?` followed by `fetchone()`; a NULL identifier
never equals the parameter. -/
def get_details (rows : List MdrmRow) (mdrm_id : String) : DetailsResponse :=
  match rows.find? (fun r => r.mdrm_identifier == some mdrm_id) with
  | some r => DetailsResponse.ok r
  | none => DetailsResponse.notFound

/-- The summary statistics with the two time-dependent fields
(`active_items`, `expired_items`) removed, for stating what is preserved
across reruns. -/
def statsSansActive (s : SummaryStats) :
    Nat × Nat × Nat × Nat × Nat × Nat × List (String × Nat) :=
  (s.total_records, s.unique_mnemonics, s.unique_item_codes,
   s.unique_reporting_forms, s.confidential_items, s.public_items,
   s.item_type_counts)

/-- The rows that `df_insert.to_sql` hands to SQLite when all insert
columns are present: the projection of each normalized row to the insert
columns, converted to fact-table rows. -/
def insertedRows (f : DataFrame) : List MdrmRow :=
  ((renameCols f).rows.map (fun r =>
    insertColumns.map (fun c => getCell r ((renameCols f).header.indexOf c)))).map toMdrmRow

/-- Modelled from the spec's wording for the free-text columns: replace
every occurrence of the HTML numeric entity for carriage return with a
newline, then every occurrence of the ampersand entity with a literal
ampersand, then strip leading and trailing whitespace. Stated separately
from `cleanTextStr` so that the source transform can be compared against
the spec's description. -/
def specTextClean (s : String) : String :=
  String.mk (trimChars (replaceChars "&amp;".data "&".data
    (replaceChars "&#x0D;".data "\n".data s.data)))

/-- A fixed computation date for the concrete instances below. -/
def d0 : SqlDate := ⟨2026, 10, 12⟩

/-- A fact-table row whose `end_date` is NULL (every other field NULL as
well). -/
def rowNullEnd : MdrmRow :=
  ⟨none, none, none, none, none, none, none, none, none, none, none⟩

/-- A raw frame with every expected column except `Description`. -/
def cexFrameC2 : DataFrame :=
  ⟨["Mnemonic", "Item Code", "Start Date", "End Date", "Item Name",
    "Confidentiality", "ItemType", "Reporting Form", "SeriesGlossary"],
   [List.replicate 9 Cell.null]⟩

/-- A one-row frame already carrying exactly the insert column names. -/
def witFrameC2 : DataFrame := ⟨insertColumns, [List.replicate 11 Cell.null]⟩

/-- A raw frame with every expected column except `Item Code`. -/
def cexFrameC3 : DataFrame :=
  ⟨["Mnemonic", "Start Date", "End Date", "Item Name",
    "Confidentiality", "ItemType", "Reporting Form", "Description", "SeriesGlossary"],
   [List.replicate 9 Cell.null]⟩

/-- The spec's identifier-synthesis example: `mnemonic="RCON"`,
`item_code="2170"`. -/
def exFrSynth : DataFrame :=
  ⟨["Mnemonic", "Item Code"], [[Cell.str "RCON", Cell.str "2170"]]⟩

/-- A frame with a mnemonic column but no item-code column. -/
def exFrNoIC : DataFrame := ⟨["Mnemonic"], [[Cell.str "RCON"]]⟩

/-- A loaded fact-table row used to exercise the details endpoint. -/
def exRowDetails : MdrmRow :=
  ⟨some "RCON2170", some "RCON", some "2170", none, none, some "TOTAL ASSETS",
   some "N", some "F", some "FFIEC 031", some "desc", some "gloss"⟩

theorem SqlDate.le_eq_not_lt (a b : SqlDate) : SqlDate.le a b = !SqlDate.lt b a := by
  rcases a with ⟨ay, am, ad⟩
  rcases b with ⟨by_, bm, bd⟩
  rw [Bool.eq_iff_iff]
  simp only [SqlDate.le, SqlDate.lt, Bool.or_eq_true, Bool.and_eq_true,
    Bool.not_eq_true', Bool.or_eq_false_iff, Bool.and_eq_false_iff,
    decide_eq_true_eq, decide_eq_false_iff_not, beq_iff_eq, beq_eq_false_iff_ne,
    ne_eq, Nat.not_lt]
  omega

theorem mapColumn_rows_length (f : DataFrame) (c : String) (g : Cell → Cell) :
    (mapColumn f c g).rows.length = f.rows.length := by
  unfold mapColumn
  cases f.header.indexOf? c <;> simp

theorem count_active_expired_null (today : SqlDate) (rows : List MdrmRow) :
    sqlCount (isActiveRow today) rows + sqlCount (isExpiredRow today) rows +
      sqlCount (fun r => r.end_date.isNone) rows = rows.length := by
  induction rows with
  | nil => rfl
  | cons r rs ih =>
    rcases hr : r.end_date with _ | d
    · simp [sqlCount, List.filter_cons, isActiveRow, isExpiredRow, hr] at ih ⊢
      omega
    · have hle : SqlDate.le d today = !SqlDate.lt today d := SqlDate.le_eq_not_lt d today
      by_cases hlt : SqlDate.lt today d = true
      · simp [sqlCount, List.filter_cons, isActiveRow, isExpiredRow, hr, hlt, hle] at ih ⊢
        omega
      · rw [Bool.not_eq_true] at hlt
        simp [sqlCount, List.filter_cons, isActiveRow, isExpiredRow, hr, hlt, hle] at ih ⊢
        omega

theorem count_conf_partition (rows : List MdrmRow) :
    sqlCount (fun r => r.confidentiality == some "Y") rows +
      sqlCount (fun r => r.confidentiality == some "N") rows +
      sqlCount (fun r => !(r.confidentiality == some "Y") && !(r.confidentiality == some "N")) rows
      = rows.length := by
  induction rows with
  | nil => rfl
  | cons r rs ih =>
    by_cases hy : r.confidentiality = some "Y"
    · simp [sqlCount, List.filter_cons, hy] at ih ⊢
      omega
    · by_cases hn : r.confidentiality = some "N"
      · simp [sqlCount, List.filter_cons, hn] at ih ⊢
        omega
      · simp [sqlCount, List.filter_cons, hy, hn] at ih ⊢
        omega

theorem create_database_pos (prior : Option MdrmDatabase) (f : DataFrame) (today : SqlDate)
    (h : ∀ c ∈ insertColumns, c ∈ (renameCols f).header) :
    create_database prior f today =
      some { rows := insertedRows f, stats := create_summary_stats (insertedRows f) today } := by
  have hsel : selectCols (renameCols f) insertColumns =
      some { header := insertColumns,
             rows := (renameCols f).rows.map (fun r =>
               insertColumns.map (fun c => getCell r ((renameCols f).header.indexOf c))) } := by
    unfold selectCols
    rw [if_pos h]
  simp only [create_database]
  rw [hsel]
  rfl

/-- C1, counterexample: on a loaded table holding one row with NULL
`end_date`, the persisted statistics give `active_items = 0` and
`expired_items = 0` while `total_records = 1`, so
`active_items + expired_items = total_records` fails: a NULL `end_date`
row satisfies neither `end_date > date('now')` nor
`end_date <= date('now')` and is counted in neither statistic. -/
theorem active_expired_partition_fails_on_null_end_date :
    (create_summary_stats [rowNullEnd] d0).active_items +
      (create_summary_stats [rowNullEnd] d0).expired_items ≠
      (create_summary_stats [rowNullEnd] d0).total_records := by
  decide

/-- C1, amended: for every loaded fact table,
`active_items + expired_items + (count of rows with NULL end_date)
= total_records`; rows with NULL `end_date` are counted in neither
statistic (rather than in `expired_items` as the claim stated). -/
theorem active_expired_null_partition (rows : List MdrmRow) (today : SqlDate) :
    (create_summary_stats rows today).active_items +
      (create_summary_stats rows today).expired_items +
      sqlCount (fun r => r.end_date.isNone) rows =
      (create_summary_stats rows today).total_records :=
  count_active_expired_null today rows

/-- C2, counterexample: a normalized input lacking the `Description`
column does not complete the load with rows dropped; the bulk insertion
step fails (`df_clean[insert_columns]` raises `KeyError`) and no store
is produced at all. -/
theorem missing_column_aborts_load_cex :
    create_database none (clean_csv_data cexFrameC2) d0 = none := by
  decide

/-- C2, amended: during bulk insertion, if any expected insert column is
missing from the normalized input the whole load aborts with an error
and no store is produced; rows are never individually excluded — when
all expected columns are present, every row is inserted. -/
theorem bulk_insert_no_silent_row_drop (prior : Option MdrmDatabase)
    (f : DataFrame) (today : SqlDate) :
    ((∀ c ∈ insertColumns, c ∈ (renameCols f).header) →
      ∃ db, create_database prior f today = some db ∧ db.rows.length = f.rows.length) ∧
      ((¬ ∀ c ∈ insertColumns, c ∈ (renameCols f).header) →
        create_database prior f today = none) := by
  constructor
  · intro h
    exact ⟨_, create_database_pos prior f today h, by simp [insertedRows, renameCols]⟩
  · intro h
    simp only [create_database, selectCols]
    rw [if_neg h]

/-- C2, witness: on a one-row frame carrying all insert columns the load
produces a store holding exactly that one row. -/
theorem bulk_insert_no_silent_row_drop_witness :
    ∃ db, create_database none witFrameC2 d0 = some db ∧
      db.rows.length = witFrameC2.rows.length :=
  (bulk_insert_no_silent_row_drop none witFrameC2 d0).1 (by decide)

/-- C3, counterexample: when the item-code column is absent, the
normalizer indeed skips identifier synthesis (no `MDRM_Identifier`
column is created), but the stored identifier is not null: the
downstream load fails outright because the identifier column is missing
from the expected insert list, so nothing is stored. -/
theorem absent_item_code_fails_load_cex :
    ("MDRM_Identifier" ∉ (clean_csv_data cexFrameC3).header) ∧
      create_database none (clean_csv_data cexFrameC3) d0 = none := by
  decide

/-- C3, amended: when both the mnemonic and the item-code columns are
present, the synthesized identifier of each row is the string
concatenation of the two (cast-to-string) values — `RCON` + `2170`
gives `RCON2170`; when either column is absent, identifier synthesis is
skipped (the frame is left unchanged), and the downstream load then
fails for lack of the identifier column rather than storing null. -/
theorem identifier_synthesis_checked (f : DataFrame) (i j : Nat) :
    (f.header.indexOf? "Mnemonic" = some i → f.header.indexOf? "Item Code" = some j →
      f.header.indexOf? "MDRM_Identifier" = none →
      (addIdentifier f).header = f.header ++ ["MDRM_Identifier"] ∧
      (addIdentifier f).rows = f.rows.map (fun r =>
        r ++ [Cell.str (astypeStr (getCell r i) ++ astypeStr (getCell r j))])) ∧
    ((f.header.indexOf? "Mnemonic" = none ∨ f.header.indexOf? "Item Code" = none) →
      addIdentifier f = f) ∧
    (addIdentifier exFrSynth).rows =
      [[Cell.str "RCON", Cell.str "2170", Cell.str "RCON2170"]] := by
  refine ⟨?_, ?_, by decide⟩
  · intro hm hic hid
    unfold addIdentifier
    rw [hm, hic]
    unfold assignColumn
    rw [hid]
    exact ⟨rfl, rfl⟩
  · rintro (h | h)
    · unfold addIdentifier
      rw [h]
    · unfold addIdentifier
      rw [h]
      cases hm : f.header.indexOf? "Mnemonic" <;> rfl

/-- C3, witness: the synthesis equation applied to the `RCON`/`2170`
frame, and the skip branch applied to a frame without an item-code
column. -/
theorem identifier_synthesis_checked_witness :
    ((addIdentifier exFrSynth).header = exFrSynth.header ++ ["MDRM_Identifier"] ∧
      (addIdentifier exFrSynth).rows = exFrSynth.rows.map (fun r =>
        r ++ [Cell.str (astypeStr (getCell r 0) ++ astypeStr (getCell r 1))])) ∧
      addIdentifier exFrNoIC = exFrNoIC :=
  ⟨(identifier_synthesis_checked exFrSynth 0 1).1 (by decide) (by decide) (by decide),
   (identifier_synthesis_checked exFrNoIC 0 0).2.1 (Or.inr (by decide))⟩

/-- C4: the transformation applied to each free-text value is exactly
the spec's description — decode the carriage-return entity to a newline,
decode the ampersand entity, strip — and nothing else; including the
spec's concrete decode examples. -/
theorem text_cleaning_exact (s : String) :
    textCleanCell (Cell.str s) = Cell.str (specTextClean s) ∧
      cleanTextStr "a&#x0D;b" = "a\nb" ∧
      cleanTextStr "A &amp; B" = "A & B" ∧
      cleanTextStr "  x  " = "x" :=
  ⟨rfl, by decide, by decide, by decide⟩

/-- C5: rerunning the pipeline on the same normalized source frame with
any pre-existing store and any computation dates yields the same fact
table rows, the same load outcome, and the same statistics apart from
the time-dependent `active_items`/`expired_items` pair: the pre-existing
store is destroyed and never read (full-replace semantics). -/
theorem pipeline_idempotent_mod_time (prior prior' : Option MdrmDatabase)
    (f : DataFrame) (t t' : SqlDate) :
    (runPipeline prior f t).map MdrmDatabase.rows =
        (runPipeline prior' f t').map MdrmDatabase.rows ∧
      (runPipeline prior f t).map (fun db => statsSansActive db.stats) =
        (runPipeline prior' f t').map (fun db => statsSansActive db.stats) ∧
      (runPipeline prior f t).isSome = (runPipeline prior' f t').isSome := by
  unfold runPipeline create_database
  cases h : selectCols (renameCols (clean_csv_data f)) insertColumns <;>
    simp [h, statsSansActive, create_summary_stats]

/-- C6: the read attempts UTF-8 first and on a decode failure retries
exactly once with latin-1; the read succeeds exactly when either
encoding decodes the file, and the process exit status is nonzero
exactly when both fail. -/
theorem encoding_retry_policy (bs : List Nat) :
    (readMdrmCsv bs).attempted =
        (if (utf8DecodeList bs).isSome then [CsvEncoding.utf8]
          else [CsvEncoding.utf8, CsvEncoding.latin1]) ∧
      (readMdrmCsv bs).result.isSome =
        ((utf8DecodeList bs).isSome || (latin1DecodeList bs).isSome) ∧
      mainExitOnRead bs =
        (if (utf8DecodeList bs).isSome ∨ (latin1DecodeList bs).isSome then 0 else 1) := by
  cases h : utf8DecodeList bs <;>
    simp [readMdrmCsv, mainExitOnRead, latin1DecodeList, h]

/-- C7: date coercion is total — every cell becomes either a parsed date
or null (missing values stay null) — and the date-cleaning step never
changes the number of rows, so no input value can raise or reject a
row. -/
theorem date_parse_total_and_lossless (c : Cell) (f : DataFrame) :
    (toDatetimeCoerce c = Cell.null ∨ ∃ d, toDatetimeCoerce c = Cell.date d) ∧
      toDatetimeCoerce Cell.null = Cell.null ∧
      (cleanDatesStep f).rows.length = f.rows.length := by
  refine ⟨?_, rfl, ?_⟩
  · cases c with
    | null => exact Or.inl rfl
    | date d => exact Or.inr ⟨d, rfl⟩
    | str s =>
      cases h : parseDateStr s with
      | none => exact Or.inl (by simp [toDatetimeCoerce, h])
      | some d => exact Or.inr ⟨d, by simp [toDatetimeCoerce, h]⟩
  · unfold cleanDatesStep
    rw [mapColumn_rows_length, mapColumn_rows_length]

/-- C8: for every loaded fact table,
`confidential_items + public_items + (count with confidentiality neither
Y nor N, NULL included) = total_records`. -/
theorem confidentiality_partition (rows : List MdrmRow) (today : SqlDate) :
    (create_summary_stats rows today).confidential_items +
      (create_summary_stats rows today).public_items +
      sqlCount (fun r => !(r.confidentiality == some "Y") && !(r.confidentiality == some "N")) rows =
      (create_summary_stats rows today).total_records :=
  count_conf_partition rows

/-- C9: a point lookup by an identifier present in the table returns a
full record from the table bearing that identifier; a lookup by an
identifier not present returns the structured not-found response (the
endpoint has no other outcome, so no server error). -/
theorem get_details_lookup (rows : List MdrmRow) (mdrm_id : String) :
    ((∃ r ∈ rows, r.mdrm_identifier = some mdrm_id) →
      ∃ rec, get_details rows mdrm_id = DetailsResponse.ok rec ∧
        rec ∈ rows ∧ rec.mdrm_identifier = some mdrm_id) ∧
      ((∀ r ∈ rows, r.mdrm_identifier ≠ some mdrm_id) →
        get_details rows mdrm_id = DetailsResponse.notFound) := by
  constructor
  · rintro ⟨r, hr, hid⟩
    have hsome : (rows.find? (fun r => r.mdrm_identifier == some mdrm_id)).isSome := by
      rw [List.find?_isSome]
      exact ⟨r, hr, by simp [hid]⟩
    rcases Option.isSome_iff_exists.mp hsome with ⟨rec, hrec⟩
    refine ⟨rec, ?_, List.mem_of_find?_eq_some hrec, ?_⟩
    · simp [get_details, hrec]
    · have := List.find?_some hrec
      simpa using this
  · intro hall
    have hnone : rows.find? (fun r => r.mdrm_identifier == some mdrm_id) = none := by
      rw [List.find?_eq_none]
      intro x hx
      simpa using hall x hx
    simp [get_details, hnone]

/-- C9, witness: lookup of `RCON2170` in a one-row table returns that
record; lookup of an absent identifier returns not-found. -/
theorem get_details_lookup_witness :
    (∃ rec, get_details [exRowDetails] "RCON2170" = DetailsResponse.ok rec ∧
      rec ∈ [exRowDetails] ∧ rec.mdrm_identifier = some "RCON2170") ∧
      get_details [exRowDetails] "ZZZZ9999" = DetailsResponse.notFound :=
  ⟨(get_details_lookup [exRowDetails] "RCON2170").1
      ⟨exRowDetails, by decide, by decide⟩,
   (get_details_lookup [exRowDetails] "ZZZZ9999").2 (by decide)⟩

/-- C10: a missing value in a free-text column is cast to the literal
string `nan` by `astype(str)` before the entity decoding and strip, so
the cleaned cell — and hence the stored value — is the non-null text
`nan`, for each of the three free-text columns. -/
theorem missing_text_becomes_nan :
    (cleanTextStep ⟨["Description"], [[Cell.null]]⟩).rows = [[Cell.str "nan"]] ∧
      (cleanTextStep ⟨["SeriesGlossary"], [[Cell.null]]⟩).rows = [[Cell.str "nan"]] ∧
      (cleanTextStep ⟨["Item Name"], [[Cell.null]]⟩).rows = [[Cell.str "nan"]] ∧
      textCleanCell Cell.null = Cell.str "nan" ∧
      cellToOptStr (textCleanCell Cell.null) = some "nan" := by
  decide
